import Mathlib

/-!
# Verification of the paid-clinic dataset generator

A shallow embedding in Lean 4 of the algorithmic core of the
`dataset-creation-paid-clinic` repository (files `utils.py`,
`validators.py`, `dataset_generator.py`), together with theorems settling
the frozen specification claims.

Modelling conventions:
* Python strings are Lean `String`s; character-level work happens on
  `String.data : List Char`.
* Python `random.randint`/`random.choice` draws become explicit function
  arguments (the draw outcomes), constrained by hypotheses that mirror the
  draw ranges.
* The repository's `config.py` and `data_dictionaries.py` are not part of
  the provided sources; the few constants the claims need are modelled from
  the specification and marked `Modelled from the spec:` in their doc
  comments.
* Timestamps are modelled at minute granularity (the generator always sets
  `second=0, microsecond=0`) as minutes elapsed since a reference Monday
  00:00, so `weekday` is `t / 1440 % 7` with Monday = 0, as in Python.
-/

namespace Clinic

/-! ## Character and digit utilities -/

/-- `int(c)` on a single decimal digit character, as used by the Python
validators (`int(char)` over characters already known to be digits). -/
def charToDigit (c : Char) : Nat := c.toNat - 48

/-- `int(s)` on a string of decimal digit characters (Python `int` of a
digit string, leading zeros allowed). -/
def digitsToNat (cs : List Char) : Nat :=
  cs.foldl (fun a c => 10 * a + charToDigit c) 0

/-- Decimal rendering of a natural number (Python `str`/f-string of an
`int`): no padding, most significant digit first. -/
def natDecRepr (n : Nat) : List Char :=
  if _h : n < 10 then [Nat.digitChar n]
  else natDecRepr (n / 10) ++ [Nat.digitChar (n % 10)]
  decreasing_by exact Nat.div_lt_self (by omega) (by omega)

/-- Python `f"{n:02d}"` for naturals: pad with a leading zero to width 2. -/
def pyFormat02d (n : Nat) : List Char :=
  if n < 10 then '0' :: natDecRepr n else natDecRepr n

/-- Character class `[0-9]` (Python regex `\d`, ASCII range here). -/
def isDigitP (c : Char) : Bool := c.isDigit

/-- Character class for a literal character in a regex. -/
def litP (a : Char) : Char → Bool := fun c => c == a

/-- Character class `[A-Z]`. -/
def upperP (c : Char) : Bool := 'A' ≤ c && c ≤ 'Z'

/-- Character class `[+-]`. -/
def signP (c : Char) : Bool := c == '+' || c == '-'

/-- Anchored matching of a fixed-length regular expression given as a list
of character classes (`re.match` with `^...$` over fixed-width patterns:
every pattern in the sources is of this shape). -/
def matchSeq : List (Char → Bool) → List Char → Bool
  | [], [] => true
  | p :: ps, c :: cs => p c && matchSeq ps cs
  | _, _ => false

/-! ## Luhn checksum and bank-card generation (`utils.generate_bank_card`,
`validators.validate_card_number`) -/

/-- One addend of the Luhn sum: position `i` counts from the right
(`i = 0` is the rightmost digit); every second digit from the right is
doubled and digit-summed when the double exceeds 9.  Mirrors the loop body
shared by `utils.generate_bank_card.luhn_checksum` and
`validators.validate_card_number`. -/
def luhnAddend (i : Nat) (d : Nat) : Nat :=
  if i % 2 = 1 then
    let dd := d * 2
    if dd > 9 then dd / 10 + dd % 10 else dd
  else d

/-- Sum of Luhn addends over a digit list starting at right-position `i`. -/
def luhnAux : Nat → List Nat → Nat
  | _, [] => 0
  | i, d :: rest => luhnAddend i d + luhnAux (i + 1) rest

/-- The Luhn checksum of a digit string: total of the addends over the
reversed digits, modulo 10.  This single definition embeds both the nested
`luhn_checksum` helper inside `utils.generate_bank_card` and the identical
loop in `validators.validate_card_number`. -/
def luhn_checksum (cs : List Char) : Nat :=
  luhnAux 0 (cs.reverse.map charToDigit) % 10

/-- The check-digit search of `utils.generate_bank_card`: try check digits
`d, d+1, ...` (with `fuel` candidates left) and return the first full
number whose Luhn checksum is 0.  `findCheckDigit` runs it for
`d = 0..9`, mirroring `for check_digit in range(10)`. -/
def findCheckFrom (p : List Char) : Nat → Nat → Option (List Char)
  | _, 0 => none
  | d, fuel + 1 =>
    let t := p ++ [Nat.digitChar d]
    if luhn_checksum t = 0 then some t else findCheckFrom p (d + 1) fuel

/-- First check digit in `0..9` making `p` Luhn-valid, if any (the
`for`/`break` of `utils.generate_bank_card`). -/
def findCheckDigit (p : List Char) : Option (List Char) :=
  findCheckFrom p 0 10

/-- `utils.generate_bank_card`, lines 318-387.  The bank and payment-system
probability draws only select a BIN pool out of `config.BANK_BINS` (config
data absent from the sources), so the model takes the chosen BIN directly,
plus the nine random filler digits; the returned bank/system names are
dropped since nothing downstream consumes them.  Returns the formatted
card number (four space-separated groups of four). -/
def generate_bank_card (bin_code : List Char) (ds : List Nat) : String :=
  let remaining_digits := ds.map Nat.digitChar
  let partNum := bin_code ++ remaining_digits
  let full_number := (findCheckDigit partNum).getD (partNum ++ ['0'])
  let formatted := full_number.take 4 ++ ' ' :: ((full_number.drop 4).take 4)
      ++ ' ' :: ((full_number.drop 8).take 4)
      ++ ' ' :: ((full_number.drop 12).take 4)
  String.mk formatted

/-- `validators.validate_card_number`, lines 140-171: strip spaces, check
16 decimal digits, Luhn total divisible by 10. -/
def validate_card_number (card_number : String) : Bool :=
  let card_clean := card_number.data.filter (fun c => c ≠ ' ')
  if card_clean.all Char.isDigit && card_clean.length == 16 then
    luhn_checksum card_clean == 0
  else
    false

/-! ## Insurance number (SNILS): `utils.generate_snils_number`,
`validators.validate_snils_format` -/

/-- The weighted sum `Σ digit_i * (9 - i)` over digits starting at
position `i` (the loops `for i, digit in enumerate(...)` in both the
generator and the validator). -/
def snilsSumAux : Nat → List Nat → Nat
  | _, [] => 0
  | i, d :: rest => d * (9 - i) + snilsSumAux (i + 1) rest

/-- The control-number mapping of `utils.generate_snils_number`,
lines 95-102. -/
def snilsControlNumber (control_sum : Nat) : Nat :=
  if control_sum < 100 then control_sum
  else if control_sum = 100 ∨ control_sum = 101 then 0
  else
    let m := control_sum % 101
    if m = 100 then 0 else m

/-- `utils.generate_snils_number`, lines 80-108, as a function of the nine
random digits. -/
def generate_snils_number (ds : List Nat) : String :=
  let control_number := snilsControlNumber (snilsSumAux 0 ds)
  let digits_str := ds.map Nat.digitChar
  String.mk (digits_str.take 3 ++ '-' :: ((digits_str.drop 3).take 3
    ++ '-' :: ((digits_str.drop 6).take 3 ++ ' ' :: pyFormat02d control_number)))

/-- Regex `^\d{3}-\d{3}-\d{3} \d{2}$`. -/
def matchSnilsFormat (cs : List Char) : Bool :=
  matchSeq (List.replicate 3 isDigitP ++ litP '-' :: (List.replicate 3 isDigitP
    ++ litP '-' :: (List.replicate 3 isDigitP ++ litP ' ' :: List.replicate 2 isDigitP))) cs

/-- `validators.validate_snils_format`, lines 102-137. -/
def validate_snils_format (snils : String) : Bool :=
  if ¬ matchSnilsFormat snils.data then false
  else
    let digits := (snils.data.filter (fun c => c ≠ '-')).filter (fun c => c ≠ ' ')
    if digits.length ≠ 11 then false
    else
      let number_part := digits.take 9
      let control_sum := digitsToNat ((digits.drop 9).take 2)
      let calculated_sum := snilsSumAux 0 (number_part.map charToDigit)
      if calculated_sum < 100 then calculated_sum == control_sum
      else if calculated_sum = 100 ∨ calculated_sum = 101 then control_sum == 0
      else
        let m := calculated_sum % 101
        if m = 100 then control_sum == 0 else m == control_sum

/-- The suffix mapping exactly as the specification words it (kept separate
from `snilsControlNumber`, which is translated from the generator source,
so the two can be compared): suffix = sum if sum < 100; 0 if sum is 100 or
101; otherwise sum mod 101, with 100 mapped to 0. -/
def specSnilsSuffix (s : Nat) : Nat :=
  if s < 100 then s
  else if s = 100 ∨ s = 101 then 0
  else if s % 101 = 100 then 0 else s % 101

/-! ## Passport numbers: `utils.generate_passport_number`,
`validators.validate_passport_format` -/

/-- Regex `^\d{4} \d{6}$` (the "ru" pattern of
`validators.validate_passport_format`). -/
def matchRuPassport (cs : List Char) : Bool :=
  matchSeq (List.replicate 4 isDigitP ++ litP ' ' :: List.replicate 6 isDigitP) cs

/-- Regex `^[A-Z]{2}\d{7}$` (the "by" pattern). -/
def matchByPassport (cs : List Char) : Bool :=
  matchSeq (List.replicate 2 upperP ++ List.replicate 7 isDigitP) cs

/-- Regex `^N\d{8}$` (the "kz" pattern). -/
def matchKzPassport (cs : List Char) : Bool :=
  matchSeq (litP 'N' :: List.replicate 8 isDigitP) cs

/-- `validators.validate_passport_format`, lines 79-99: the patterns
dictionary plus the `country not in patterns` guard, written as the
equivalent chain of country tests. -/
def validate_passport_format (passport : String) (country : String) : Bool :=
  if country = "ru" then matchRuPassport passport.data
  else if country = "by" then matchByPassport passport.data
  else if country = "kz" then matchKzPassport passport.data
  else false

/-- `utils.generate_passport_number`, lines 52-77.  `random.randint` is
modelled as a function argument constrained by the caller; the BY prefix
pool `PASSPORT_FORMATS["by"]["prefixes"]` lives in the absent `config.py`
(Modelled from the spec: a prefix of 2 uppercase letters), so the chosen
prefix is an argument.  Raising `ValueError` is modelled as
`Except.error` carrying the message text. -/
def generate_passport_number (country : String) (randint : Nat → Nat → Nat)
    (byPref : String) : Except String String :=
  if country = "ru" then
    let series := randint 1000 9999
    let number := randint 100000 999999
    Except.ok (String.mk (natDecRepr series ++ ' ' :: natDecRepr number))
  else if country = "by" then
    let number := randint 1000000 9999999
    Except.ok (String.mk (byPref.data ++ natDecRepr number))
  else if country = "kz" then
    let number := randint 10000000 99999999
    Except.ok (String.mk ('N' :: natDecRepr number))
  else
    Except.error ("Неподдерживаемая страна: " ++ country)

/-! ## Record validation: `validators.validate_passport_ru` and
`validators.DataValidator.validate_record` -/

/-- Python `datetime` at minute granularity (the strings this program
parses carry at most year-month-day-hour-minute; seconds are always
absent). -/
structure PyDateTime where
  year : Nat
  month : Nat
  day : Nat
  hour : Nat
  minute : Nat
deriving DecidableEq

/-- Python `datetime` comparison: field-lexicographic. -/
def pyLt (a b : PyDateTime) : Bool :=
  if a.year ≠ b.year then a.year < b.year
  else if a.month ≠ b.month then a.month < b.month
  else if a.day ≠ b.day then a.day < b.day
  else if a.hour ≠ b.hour then a.hour < b.hour
  else a.minute < b.minute

/-- Gregorian leap year, as Python's `calendar`/`datetime` uses it. -/
def isLeapYear (y : Nat) : Bool :=
  (y % 4 == 0 && y % 100 != 0) || y % 400 == 0

/-- Days in a month, Gregorian. -/
def daysInMonth (y m : Nat) : Nat :=
  if m = 2 then (if isLeapYear y then 29 else 28)
  else if m = 4 ∨ m = 6 ∨ m = 9 ∨ m = 11 then 30
  else 31

/-- `datetime.fromisoformat`, restricted to the grammar this program can
feed it: `YYYY-MM-DD`, optionally followed by `'T'` or `' '` and `HH:MM`
(no seconds — the program's own timestamps carry none).  `none` models the
`ValueError` raise. -/
def fromisoformat (cs : List Char) : Option PyDateTime :=
  match cs with
  | y1 :: y2 :: y3 :: y4 :: '-' :: m1 :: m2 :: '-' :: d1 :: d2 :: rest =>
    if [y1, y2, y3, y4, m1, m2, d1, d2].all Char.isDigit then
      let y := digitsToNat [y1, y2, y3, y4]
      let mo := digitsToNat [m1, m2]
      let da := digitsToNat [d1, d2]
      let hm? : Option (Nat × Nat) :=
        match rest with
        | [] => some (0, 0)
        | sep :: h1 :: h2 :: ':' :: n1 :: n2 :: [] =>
          if (sep = 'T' ∨ sep = ' ') ∧ [h1, h2, n1, n2].all Char.isDigit then
            some (digitsToNat [h1, h2], digitsToNat [n1, n2])
          else none
        | _ => none
      match hm? with
      | none => none
      | some (h, mi) =>
        if 1 ≤ y ∧ y ≤ 9999 ∧ 1 ≤ mo ∧ mo ≤ 12 ∧ 1 ≤ da ∧ da ≤ daysInMonth y mo
            ∧ h ≤ 23 ∧ mi ≤ 59 then
          some ⟨y, mo, da, h, mi⟩
        else none
    else none
  | _ => none

/-- Python `s.replace(pat, '')`: remove all (non-overlapping, left-to-right)
occurrences of `pat`. -/
def removeSub (pat : List Char) : List Char → List Char
  | [] => []
  | c :: rest =>
    if h : pat ≠ [] ∧ pat.isPrefixOf (c :: rest) then
      removeSub pat ((c :: rest).drop pat.length)
    else
      c :: removeSub pat rest
  termination_by cs => cs.length
  decreasing_by
  · have hp : 0 < pat.length := List.length_pos.mpr h.1
    simp only [List.length_drop, List.length_cons]
    omega
  · simp only [List.length_cons]
    omega

/-- Python truthiness of an optional string (`if s:`). -/
def strTruthy : Option String → Bool
  | none => false
  | some s => s ≠ ""

/-- Regex `^\d{3}-\d{3}$` (the department-code pattern). -/
def matchDeptCode (cs : List Char) : Bool :=
  matchSeq (List.replicate 3 isDigitP ++ litP '-' :: List.replicate 3 isDigitP) cs

/-- Regex `^\d{4}-\d{2}-\d{2}T\d{2}:\d{2}[+-]\d{2}:\d{2}$`
(`validators.validate_iso_datetime`, lines 174-186). -/
def validate_iso_datetime (datetime_str : String) : Bool :=
  matchSeq (List.replicate 4 isDigitP ++ litP '-' :: (List.replicate 2 isDigitP
    ++ litP '-' :: (List.replicate 2 isDigitP ++ litP 'T' :: (List.replicate 2 isDigitP
    ++ litP ':' :: (List.replicate 2 isDigitP ++ signP :: (List.replicate 2 isDigitP
    ++ litP ':' :: List.replicate 2 isDigitP)))))) datetime_str.data

/-- Python `c.isspace()` for the whitespace `str.split()` splits on (the
characters that can occur here). -/
def isPySpace (c : Char) : Bool :=
  c == ' ' || c == '\t' || c == '\n' || c == '\r'

/-- Token counter for Python `s.split()`: number of maximal runs of
non-whitespace.  The Bool tracks being inside a token. -/
def splitCount : List Char → Bool → Nat
  | [], _ => 0
  | c :: rest, inTok =>
    if isPySpace c then splitCount rest false
    else (if inTok then 0 else 1) + splitCount rest true

/-- `len(s.split())`. -/
def pyWordCount (s : String) : Nat := splitCount s.data false

/-- Python `s.endswith(t)`. -/
def pyEndsWith (s t : String) : Bool := t.data.isSuffixOf s.data

/-- The validation error messages of `validate_passport_ru` and
`validate_record`, one constructor per distinct message template, carrying
the interpolated values of the f-string messages. -/
inductive VError where
  | fioInvalid
  | ruFormat
  | deptFormat
  | regionMismatch (series_region dept_region : Nat)
  | issueTooEarly
  | yearMismatch (series_year expected_year : Nat)
  | issueAfterVisit
  | issueDateFormat
  | passportFormat (country : String)
  | snilsInvalid
  | visitDateFormat
  | analysisDateFormat
  | cardInvalid
  | costNotRub
deriving DecidableEq

/-- The department-code checks of `validate_passport_ru` (lines 36-47):
format, then region prefix against the first two series digits
(`int(series[:2])` vs `int(dept_code.split('-')[0])`; after the format
check the split head is exactly the first three characters). -/
def ruDeptErrors (series : List Char) (dept : Option String) : List VError :=
  match dept with
  | none => []
  | some dc =>
    if dc = "" then []
    else if ¬ matchDeptCode dc.data then [VError.deptFormat]
    else
      let series_region := digitsToNat (series.take 2)
      let dept_region := digitsToNat (dc.data.take 3)
      if series_region ≠ dept_region then
        [VError.regionMismatch series_region dept_region]
      else []

/-- The issue-date checks of `validate_passport_ru` (lines 49-75): parse
(`ValueError` becomes `issueDateFormat`), the 1997-10-01 cutoff, the
2-digit year in `series[2:4]` against the issue year, and
issue-after-visit (the inner bare `except: pass` makes a visit-date parse
failure silent). -/
def ruIssueErrors (series : List Char) (issue visit : Option String) : List VError :=
  match issue with
  | none => []
  | some isd =>
    if isd = "" then []
    else
      match fromisoformat isd.data with
      | none => [VError.issueDateFormat]
      | some issue_dt =>
        let e1 := if pyLt issue_dt ⟨1997, 10, 1, 0, 0⟩ then [VError.issueTooEarly] else []
        let series_year := digitsToNat ((series.drop 2).take 2)
        let expected_year := issue_dt.year % 100
        let e2 := if series_year ≠ expected_year then
            [VError.yearMismatch series_year expected_year]
          else []
        let e3 :=
          match visit with
          | none => []
          | some vd =>
            if vd = "" then []
            else
              match fromisoformat (removeSub "+03:00".data vd.data) with
              | none => []
              | some visit_dt =>
                if pyLt visit_dt issue_dt then [VError.issueAfterVisit] else []
        e1 ++ e2 ++ e3

/-- `validators.validate_passport_ru`, lines 9-77: early return on a bad
series/number format, then department-code and issue-date checks. -/
def validate_passport_ru (passport_data : String)
    (passport_issue_date passport_department_code visit_date : Option String) :
    Bool × List VError :=
  if ¬ matchRuPassport passport_data.data then (false, [VError.ruFormat])
  else
    let series := passport_data.data.take 4
    let errors := ruDeptErrors series passport_department_code
      ++ ruIssueErrors series passport_issue_date visit_date
    (decide (errors = []), errors)

/-- One dataset record as consumed by `validate_record`, with the
`record.get` defaults of the source as field defaults (`visit_date` and the
long-form passport fields default to `None`). -/
structure Record where
  FIO : String := ""
  passport_data : String := ""
  passport_country : String := "ru"
  passport_issue_date : Option String := none
  passport_department_code : Option String := none
  visit_date : Option String := none
  SNILS : String := ""
  analysis_date : String := ""
  payment_card : String := ""
  analysis_cost : String := ""
deriving DecidableEq

/-- `validators.DataValidator.validate_record`, lines 302-366: FIO shape,
country-dependent passport check, SNILS only for "ru" and only when
non-empty, the two ISO timestamps, the Luhn card check, and the currency
suffix of the cost string. -/
def validate_record (r : Record) : Bool × List VError :=
  let fioErrs := if r.FIO = "" ∨ pyWordCount r.FIO ≠ 3 then [VError.fioInvalid] else []
  let passportErrs :=
    if r.passport_country = "ru" then
      let pr := validate_passport_ru r.passport_data r.passport_issue_date
        r.passport_department_code r.visit_date
      if pr.1 then [] else pr.2
    else
      if validate_passport_format r.passport_data r.passport_country then []
      else [VError.passportFormat r.passport_country]
  let snilsErrs :=
    if r.passport_country = "ru" then
      if r.SNILS ≠ "" ∧ validate_snils_format r.SNILS = false then
        [VError.snilsInvalid]
      else []
    else []
  let visitErrs :=
    if validate_iso_datetime (r.visit_date.getD "") then [] else [VError.visitDateFormat]
  let analysisErrs :=
    if validate_iso_datetime r.analysis_date then [] else [VError.analysisDateFormat]
  let cardErrs :=
    if validate_card_number r.payment_card then [] else [VError.cardInvalid]
  let costErrs :=
    if pyEndsWith r.analysis_cost " руб." then [] else [VError.costNotRub]
  let errors := fioErrs ++ passportErrs ++ snilsErrs ++ visitErrs ++ analysisErrs
    ++ cardErrs ++ costErrs
  (decide (errors = []), errors)

/-- A fully well-formed "ru" record with an absent (blank) insurance
number. -/
def sampleRuRecord : Record where
  FIO := "Иванов Иван Иванович"
  passport_data := "4512 123456"
  passport_country := "ru"
  SNILS := ""
  visit_date := some "2025-09-15T10:30+03:00"
  analysis_date := "2025-09-16T10:30+03:00"
  payment_card := "4000 0000 0000 0002"
  analysis_cost := "1500 руб."

/-! ## Working-hours timestamps: `utils.generate_analysis_datetime`

Timestamps are naturals counting minutes since a reference Monday 00:00
(the generator only ever produces whole-minute times: `second=0,
microsecond=0`), so Python's `dt.weekday()` is `t / 1440 % 7` with
Monday = 0 and `dt.hour` is `t % 1440 / 60`. -/

/-- Modelled from the spec: `config.WORK_DAYS` (config.py absent): the
working-day set Monday-Friday, `[0, 1, 2, 3, 4]` — also the default of
`validators.validate_working_day`. -/
def WORK_DAYS : List Nat := [0, 1, 2, 3, 4]

/-- Modelled from the spec: `config.WORK_HOURS_START` — 9, the default of
`validators.validate_working_hours`. -/
def WORK_HOURS_START : Nat := 9

/-- Modelled from the spec: `config.WORK_HOURS_END` — 18, the default of
`validators.validate_working_hours`. -/
def WORK_HOURS_END : Nat := 18

/-- Modelled from the spec: `config.ANALYSIS_MIN_HOURS` — 24, the 24-72h
window named in the docstring of `generate_analysis_datetime`. -/
def ANALYSIS_MIN_HOURS : Nat := 24

/-- Modelled from the spec: `config.ANALYSIS_MAX_HOURS` — 72. -/
def ANALYSIS_MAX_HOURS : Nat := 72

/-- Python `dt.weekday()`: Monday = 0. -/
def weekday (t : Nat) : Nat := t / 1440 % 7

/-- Python `dt.hour`. -/
def hourOf (t : Nat) : Nat := t % 1440 / 60

/-- Python `dt.replace(hour=h, minute=m)` (seconds already zero). -/
def replaceHM (t h m : Nat) : Nat := 1440 * (t / 1440) + 60 * h + m

/-- The `days_to_add` search of `generate_analysis_datetime` (lines
279-281): the smallest `k ≥ 1` with `weekday (t + k days)` a working day.
The Python `while` is unbounded but weekdays cycle with period 7, so the
search over 1..7 is exact. -/
def daysToAdd (t : Nat) : Nat :=
  match (List.range 7).find? (fun j => weekday (t + 1440 * (j + 1)) ∈ WORK_DAYS) with
  | some j => j + 1
  | none => 1

/-- One iteration of the correction in `generate_analysis_datetime`
(lines 275-290): shift a non-working weekday forward to the next working
day, then clamp the hour — before work start, snap to start-of-day; at or
after work end, snap to start-of-day of the following day.  The weekday is
not rechecked after the second clamp, exactly as in the source. -/
def correctStep (dt : Nat) : Nat :=
  let dt1 := if weekday dt ∈ WORK_DAYS then dt else dt + 1440 * daysToAdd dt
  if hourOf dt1 < WORK_HOURS_START then replaceHM dt1 WORK_HOURS_START 0
  else if hourOf dt1 ≥ WORK_HOURS_END then replaceHM dt1 WORK_HOURS_START 0 + 1440
  else dt1

/-- The retry loop of `generate_analysis_datetime` (lines 272-301): with
`fuel` attempts left (max 10), correct the candidate; if it now lies within
`ANALYSIS_MAX_HOURS` of the visit, exit through the `break` (flag `true`);
otherwise redraw a smaller offset (`redraw i`, drawn from
`[ANALYSIS_MIN_HOURS, min 60 ANALYSIS_MAX_HOURS]`) and retry.  On
exhaustion the last uncorrected redraw is returned (flag `false`). -/
def analysisLoop (visit : Nat) (redraw : Nat → Nat) : Nat → Nat → Nat → Nat × Bool
  | 0, _, dt => (dt, false)
  | fuel + 1, i, dt =>
    let c := correctStep dt
    if c - visit ≤ 60 * ANALYSIS_MAX_HOURS then (c, true)
    else analysisLoop visit redraw fuel (i + 1) (visit + 60 * redraw i)

/-- `utils.generate_analysis_datetime`, lines 257-302, as a function of the
visit timestamp and the random draws: `hours0` is the initial
`randint(ANALYSIS_MIN_HOURS, ANALYSIS_MAX_HOURS)` and `redraw i` the i-th
retry draw. -/
def generate_analysis_datetime (visit : Nat) (hours0 : Nat)
    (redraw : Nat → Nat) : Nat × Bool :=
  analysisLoop visit redraw 10 0 (visit + 60 * hours0)

/-! ## The uniqueness tracker (`validators.UniquenessTracker`) and the
Record Assembler's card-selection path
(`dataset_generator.DatasetGenerator.generate_visit_record`) -/

/-- Lookup in an insertion-ordered association list (Python `dict.get`). -/
def lookupA {α β : Type} [DecidableEq α] : List (α × β) → α → Option β
  | [], _ => none
  | (k', v') :: rest, k => if k' = k then some v' else lookupA rest k

/-- Update/insert in an insertion-ordered association list (Python
`dict[k] = v`: overwrite the existing key in place, else append). -/
def setA {α β : Type} [DecidableEq α] : List (α × β) → α → β → List (α × β)
  | [], k, v => [(k, v)]
  | (k', v') :: rest, k, v =>
    if k' = k then (k, v) :: rest else (k', v') :: setA rest k v

/-- `validators.UniquenessTracker`, lines 224-290: the four registries.
Python sets/dicts become lists (a set is a list without duplicates by
construction; only membership is observed). -/
structure UniquenessTracker where
  passports : List String
  fio_to_passport : List (String × String)
  snils_by_client : List ((String × String) × String)
  card_usage : List (String × Nat)
deriving DecidableEq

/-- The freshly initialised tracker (`__init__`). -/
def emptyTracker : UniquenessTracker := ⟨[], [], [], []⟩

namespace UniquenessTracker

/-- `is_passport_unique`. -/
def is_passport_unique (t : UniquenessTracker) (passport : String) : Bool :=
  passport ∉ t.passports

/-- `add_passport`. -/
def add_passport (t : UniquenessTracker) (passport : String) :
    Bool × UniquenessTracker :=
  if t.is_passport_unique passport then
    (true, { t with passports := t.passports ++ [passport] })
  else (false, t)

/-- `get_fio_passport`. -/
def get_fio_passport (t : UniquenessTracker) (fio : String) : Option String :=
  lookupA t.fio_to_passport fio

/-- `add_fio_passport`. -/
def add_fio_passport (t : UniquenessTracker) (fio passport : String) :
    Bool × UniquenessTracker :=
  if (lookupA t.fio_to_passport fio).isNone then
    let t1 := { t with fio_to_passport := setA t.fio_to_passport fio passport }
    (true, (t1.add_passport passport).2)
  else (false, t)

/-- `get_client_snils`. -/
def get_client_snils (t : UniquenessTracker) (fio passport : String) : Option String :=
  lookupA t.snils_by_client (fio, passport)

/-- `add_client_snils`. -/
def add_client_snils (t : UniquenessTracker) (fio passport snils : String) :
    Bool × UniquenessTracker :=
  if (lookupA t.snils_by_client (fio, passport)).isNone then
    (true, { t with snils_by_client := setA t.snils_by_client (fio, passport) snils })
  else (false, t)

/-- `can_use_card` (default reuse limit 5, as in the source). -/
def can_use_card (t : UniquenessTracker) (card_number : String)
    (limit : Nat := 5) : Bool :=
  (lookupA t.card_usage card_number).getD 0 < limit

/-- `use_card`: combined check (against the default limit) and increment. -/
def use_card (t : UniquenessTracker) (card_number : String) :
    Bool × UniquenessTracker :=
  if t.can_use_card card_number then
    let newCount := (lookupA t.card_usage card_number).getD 0 + 1
    (true, { t with card_usage := setA t.card_usage card_number newCount })
  else (false, t)

end UniquenessTracker

/-- Current usage count of a card (`self.card_usage.get(card_number, 0)`). -/
def lookupUsage (t : UniquenessTracker) (c : String) : Nat :=
  (lookupA t.card_usage c).getD 0

/-- Modelled from the spec: `config.CARD_REUSE_LIMIT` (config.py is absent
from the sources).  Taken as 5, which is also the hard-coded default limit
inside `can_use_card`/`use_card`; the card-usage invariant below relies on
the configured limit agreeing with that default. -/
def CARD_REUSE_LIMIT : Nat := 5

/-- The payment-card selection of
`DatasetGenerator.generate_visit_record`, dataset_generator.py lines
236-266: with an existing-card pool and a 40% coin, reuse a uniformly
chosen card still under `CARD_REUSE_LIMIT`; otherwise generate new cards up
to 50 times looking for one under the limit, and on exhaustion force one
final freshly generated card through `use_card`.  `coin` is the
`random.random() < 0.4` draw, `pick` indexes the uniform choice among
available cards, and `gen i` is the card number produced by the i-th call
of `generate_bank_card`. -/
def selectPaymentCard (t : UniquenessTracker) (coin : Bool) (pick : Nat)
    (gen : Nat → String) : String × UniquenessTracker :=
  let existing_cards := t.card_usage.map Prod.fst
  let reuse : Option String :=
    if existing_cards ≠ [] ∧ coin = true then
      let available := existing_cards.filter (fun c => t.can_use_card c CARD_REUSE_LIMIT)
      if h : available.length ≠ 0 then
        some (available.get ⟨pick % available.length, Nat.mod_lt _ (Nat.pos_of_ne_zero h)⟩)
      else none
    else none
  match reuse with
  | some c => (c, (t.use_card c).2)
  | none =>
    match (List.range 50).find? (fun i => t.can_use_card (gen i) CARD_REUSE_LIMIT) with
    | some i => (gen i, (t.use_card (gen i)).2)
    | none => (gen 50, (t.use_card (gen 50)).2)

/-- A state-mutating tracker operation: the four mutators of
`UniquenessTracker` plus the assembler's card-selection path (the only code
that touches the tracker in `generate_visit_record`). -/
inductive TrackerOp where
  | addPassport (passport : String)
  | addFioPassport (fio passport : String)
  | addClientSnils (fio passport snils : String)
  | useCard (card : String)
  | selectCard (coin : Bool) (pick : Nat) (gen : Nat → String)

/-- Apply one tracker operation. -/
def stepOp (t : UniquenessTracker) : TrackerOp → UniquenessTracker
  | .addPassport p => (t.add_passport p).2
  | .addFioPassport f p => (t.add_fio_passport f p).2
  | .addClientSnils f p s => (t.add_client_snils f p s).2
  | .useCard c => (t.use_card c).2
  | .selectCard coin pick gen => (selectPaymentCard t coin pick gen).2

/-- Run a sequence of tracker operations. -/
def runOps (ops : List TrackerOp) (t : UniquenessTracker) : UniquenessTracker :=
  ops.foldl stepOp t

/-! ## Lemmas about digits and the Luhn checksum -/

theorem charToDigit_digitChar {d : Nat} (h : d < 10) :
    charToDigit (Nat.digitChar d) = d := by
  interval_cases d <;> rfl

theorem digitChar_isDigit {d : Nat} (h : d < 10) :
    (Nat.digitChar d).isDigit = true := by
  interval_cases d <;> rfl

theorem ne_space_of_isDigit {c : Char} (h : c.isDigit = true) : ¬ (c = ' ') := by
  intro hc
  subst hc
  exact absurd h (by decide)

/-- Appending one character to a digit string adds its (undoubled) value to
the Luhn total: the appended character sits at right-position 0. -/
theorem luhn_append (p : List Char) (c : Char) :
    luhn_checksum (p ++ [c]) =
      (charToDigit c + luhnAux 1 (p.reverse.map charToDigit)) % 10 := by
  simp [luhn_checksum, List.reverse_append, luhnAux, luhnAddend]

/-- For any digit string there is exactly one decimal check digit making the
extended string Luhn-valid. -/
theorem exists_unique_check_digit (p : List Char) :
    ∃ d₀ : Nat, d₀ < 10 ∧ luhn_checksum (p ++ [Nat.digitChar d₀]) = 0 ∧
      ∀ d : Nat, d < 10 → luhn_checksum (p ++ [Nat.digitChar d]) = 0 → d = d₀ := by
  set T := luhnAux 1 (p.reverse.map charToDigit) with hT
  refine ⟨(10 - T % 10) % 10, by omega, ?_, ?_⟩
  · rw [luhn_append, charToDigit_digitChar (by omega), ← hT]
    omega
  · intro d hd hcheck
    rw [luhn_append, charToDigit_digitChar hd, ← hT] at hcheck
    omega

theorem findCheckFrom_eq_some (p : List Char) (d₀ : Nat) (h0 : d₀ < 10)
    (hvalid : luhn_checksum (p ++ [Nat.digitChar d₀]) = 0)
    (huniq : ∀ d : Nat, d < 10 → luhn_checksum (p ++ [Nat.digitChar d]) = 0 → d = d₀) :
    ∀ fuel d, d + fuel = 10 → d ≤ d₀ →
      findCheckFrom p d fuel = some (p ++ [Nat.digitChar d₀]) := by
  intro fuel
  induction fuel with
  | zero => intro d hd hle; omega
  | succ n ih =>
    intro d hd hle
    by_cases hc : luhn_checksum (p ++ [Nat.digitChar d]) = 0
    · have : d = d₀ := huniq d (by omega) hc
      subst this
      simp [findCheckFrom, hc]
    · have hne : d ≠ d₀ := fun h => hc (h ▸ hvalid)
      simp only [findCheckFrom, hc, if_false]
      exact ih (d + 1) (by omega) (by omega)

/-- The check-digit search of `generate_bank_card` always succeeds and
returns the (unique) Luhn-valid extension. -/
theorem findCheckDigit_spec (p : List Char) :
    ∃ d₀ : Nat, d₀ < 10 ∧ luhn_checksum (p ++ [Nat.digitChar d₀]) = 0 ∧
      findCheckDigit p = some (p ++ [Nat.digitChar d₀]) := by
  obtain ⟨d₀, h0, hvalid, huniq⟩ := exists_unique_check_digit p
  exact ⟨d₀, h0, hvalid,
    findCheckFrom_eq_some p d₀ h0 hvalid huniq 10 0 rfl (by omega)⟩

theorem take_four_chunks (l : List Char) (h : l.length = 16) :
    l.take 4 ++ ((l.drop 4).take 4 ++ ((l.drop 8).take 4 ++ (l.drop 12).take 4)) = l := by
  have h4 : l.take (4 + 12) = l.take 4 ++ (l.drop 4).take 12 := List.take_add l 4 12
  have h8 : (l.drop 4).take (4 + 8) = (l.drop 4).take 4 ++ ((l.drop 4).drop 4).take 8 :=
    List.take_add (l.drop 4) 4 8
  have h12 : (l.drop 8).take (4 + 4) = (l.drop 8).take 4 ++ ((l.drop 8).drop 4).take 4 :=
    List.take_add (l.drop 8) 4 4
  have e1 : (l.drop 4).drop 4 = l.drop 8 := by
    rw [List.drop_drop]
  have e2 : (l.drop 8).drop 4 = l.drop 12 := by
    rw [List.drop_drop]
  have e3 : (l.drop 12).take 4 = l.drop 12 := by
    apply List.take_of_length_le
    simp [h]
  have htake : l.take 16 = l := by
    apply List.take_of_length_le
    omega
  rw [e1] at h8
  rw [e2] at h12
  calc l.take 4 ++ ((l.drop 4).take 4 ++ ((l.drop 8).take 4 ++ (l.drop 12).take 4))
      = l.take 4 ++ ((l.drop 4).take 4 ++ (l.drop 8).take (4 + 4)) := by rw [h12, e3]
    _ = l.take 4 ++ (l.drop 4).take (4 + 8) := by rw [h8]
    _ = l.take (4 + 12) := by rw [h4]
    _ = l := by rw [htake]

theorem filter_ne_space_eq_self {s : List Char} (hs : ∀ c ∈ s, c.isDigit = true) :
    s.filter (fun c => c ≠ ' ') = s := by
  apply List.filter_eq_self.mpr
  intro c hc
  simpa using ne_space_of_isDigit (hs c hc)

/-- Unfolds `generate_bank_card` on the success path of the check-digit
search: the output is the found 16-digit number in groups of four. -/
theorem generate_bank_card_data (bin : List Char) (ds : List Nat) (full : List Char)
    (hfind : findCheckDigit (bin ++ ds.map Nat.digitChar) = some full) :
    (generate_bank_card bin ds).data =
      full.take 4 ++ ' ' :: ((full.drop 4).take 4 ++ ' ' ::
        ((full.drop 8).take 4 ++ ' ' :: (full.drop 12).take 4)) := by
  simp only [generate_bank_card, hfind, Option.getD_some]
  simp only [List.append_assoc, List.cons_append]

/-- Core specification of `generate_bank_card`: removing the three interior
spaces recovers a 16-digit Luhn-valid number. -/
theorem generate_bank_card_spec (bin : List Char) (ds : List Nat)
    (hbin₁ : bin.length = 6) (hbin₂ : ∀ c ∈ bin, c.isDigit = true)
    (hds₁ : ds.length = 9) (hds₂ : ∀ d ∈ ds, d < 10) :
    ∃ full : List Char,
      (generate_bank_card bin ds).data.filter (fun c => c ≠ ' ') = full ∧
      full.length = 16 ∧ (∀ c ∈ full, c.isDigit = true) ∧ luhn_checksum full = 0 := by
  have hpdig : ∀ c ∈ bin ++ ds.map Nat.digitChar, c.isDigit = true := by
    intro c hc
    rcases List.mem_append.mp hc with h | h
    · exact hbin₂ c h
    · obtain ⟨d, hd, rfl⟩ := List.mem_map.mp h
      exact digitChar_isDigit (hds₂ d hd)
  obtain ⟨d₀, hd₀, hvalid, hfind⟩ := findCheckDigit_spec (bin ++ ds.map Nat.digitChar)
  refine ⟨(bin ++ ds.map Nat.digitChar) ++ [Nat.digitChar d₀], ?_, ?_, ?_, hvalid⟩
  · have hfdig : ∀ c ∈ (bin ++ ds.map Nat.digitChar) ++ [Nat.digitChar d₀],
        c.isDigit = true := by
      intro c hc
      rcases List.mem_append.mp hc with h | h
      · exact hpdig c h
      · simp only [List.mem_singleton] at h
        subst h
        exact digitChar_isDigit hd₀
    have hflen : ((bin ++ ds.map Nat.digitChar) ++ [Nat.digitChar d₀]).length = 16 := by
      simp [hbin₁, hds₁]
    have hchunk : ∀ n m : Nat,
        ((((bin ++ ds.map Nat.digitChar) ++ [Nat.digitChar d₀]).drop n).take m).filter
          (fun c => c ≠ ' ') =
        (((bin ++ ds.map Nat.digitChar) ++ [Nat.digitChar d₀]).drop n).take m := by
      intro n m
      exact filter_ne_space_eq_self
        (fun c hc => hfdig c (List.drop_subset n _ (List.take_subset m _ hc)))
    rw [generate_bank_card_data bin ds _ hfind]
    have htop : (((bin ++ ds.map Nat.digitChar) ++ [Nat.digitChar d₀]).take 4).filter
        (fun c => c ≠ ' ') =
        ((bin ++ ds.map Nat.digitChar) ++ [Nat.digitChar d₀]).take 4 :=
      filter_ne_space_eq_self (fun c hc => hfdig c (List.take_subset 4 _ hc))
    simp only [List.filter_append, List.filter_cons]
    have hsp : (decide (¬ (' ' = ' '))) = false := by decide
    simp only [hsp, if_false, htop, hchunk]
    exact take_four_chunks _ hflen
  · simp [hbin₁, hds₁]
  · intro c hc
    rcases List.mem_append.mp hc with h | h
    · exact hpdig c h
    · simp only [List.mem_singleton] at h
      subst h
      exact digitChar_isDigit hd₀

/-! ## Claim theorems: payment cards -/

/-- Claim C6: every card number produced by `generate_bank_card`, with its
interior spaces removed, consists of exactly 16 digits whose Luhn checksum
is 0, and `validate_card_number` accepts every generator output. -/
theorem c6_generated_cards_luhn_valid (bin : List Char) (ds : List Nat)
    (hbin₁ : bin.length = 6) (hbin₂ : ∀ c ∈ bin, c.isDigit = true)
    (hds₁ : ds.length = 9) (hds₂ : ∀ d ∈ ds, d < 10) :
    ((generate_bank_card bin ds).data.filter (fun c => c ≠ ' ')).length = 16 ∧
    (((generate_bank_card bin ds).data.filter (fun c => c ≠ ' ')).all Char.isDigit) = true ∧
    luhn_checksum ((generate_bank_card bin ds).data.filter (fun c => c ≠ ' ')) = 0 ∧
    validate_card_number (generate_bank_card bin ds) = true := by
  obtain ⟨full, hclean, hlen, hdig, hluhn⟩ :=
    generate_bank_card_spec bin ds hbin₁ hbin₂ hds₁ hds₂
  have hall : full.all Char.isDigit = true := List.all_eq_true.mpr hdig
  refine ⟨by rw [hclean, hlen], by rw [hclean]; exact hall, by rw [hclean]; exact hluhn, ?_⟩
  simp only [validate_card_number, hclean, hall, hlen, hluhn]
  rfl

/-- Witness for C6 at a concrete BIN and filler digits. -/
theorem c6_generated_cards_luhn_valid_witness :
    ((generate_bank_card "400000".data (List.replicate 9 0)).data.filter
        (fun c => c ≠ ' ')).length = 16 ∧
    (((generate_bank_card "400000".data (List.replicate 9 0)).data.filter
        (fun c => c ≠ ' ')).all Char.isDigit) = true ∧
    luhn_checksum ((generate_bank_card "400000".data (List.replicate 9 0)).data.filter
        (fun c => c ≠ ' ')) = 0 ∧
    validate_card_number (generate_bank_card "400000".data (List.replicate 9 0)) = true :=
  c6_generated_cards_luhn_valid "400000".data (List.replicate 9 0)
    (by decide) (by decide) (by decide) (by decide)

/-- Claim C7: for every 15-digit prefix there is exactly one check digit in
0-9 making the 16-digit number Luhn-valid, and the check-digit search of
`generate_bank_card` always succeeds (its fallback branch appending "0" is
unreachable). -/
theorem c7_check_digit_unique_and_search_succeeds (p : List Char)
    (hlen : p.length = 15) (hdig : ∀ c ∈ p, c.isDigit = true) :
    (∃! d : Nat, d < 10 ∧ luhn_checksum (p ++ [Nat.digitChar d]) = 0) ∧
    (findCheckDigit p).isSome = true := by
  obtain ⟨d₀, h0, hv, hu⟩ := exists_unique_check_digit p
  refine ⟨⟨d₀, ⟨h0, hv⟩, fun d hd => hu d hd.1 hd.2⟩, ?_⟩
  obtain ⟨d₁, _, _, hf⟩ := findCheckDigit_spec p
  rw [hf]
  rfl

/-- Witness for C7 at the concrete prefix "400000000000000". -/
theorem c7_check_digit_unique_and_search_succeeds_witness :
    (∃! d : Nat, d < 10 ∧
      luhn_checksum ("400000000000000".data ++ [Nat.digitChar d]) = 0) ∧
    (findCheckDigit "400000000000000".data).isSome = true :=
  c7_check_digit_unique_and_search_succeeds "400000000000000".data (by decide) (by decide)

/-! ## Lemmas for the SNILS generator and validator -/

theorem matchSeq_append_of {ps₁ ps₂ : List (Char → Bool)} {cs₁ cs₂ : List Char}
    (h : matchSeq ps₁ cs₁ = true) :
    matchSeq (ps₁ ++ ps₂) (cs₁ ++ cs₂) = matchSeq ps₂ cs₂ := by
  induction ps₁ generalizing cs₁ with
  | nil =>
    cases cs₁ with
    | nil => simp
    | cons c cs => exact absurd h (by simp [matchSeq])
  | cons p ps ih =>
    cases cs₁ with
    | nil => exact absurd h (by simp [matchSeq])
    | cons c cs =>
      simp only [matchSeq, Bool.and_eq_true] at h
      simp only [List.cons_append, matchSeq, h.1, Bool.true_and]
      exact ih h.2

theorem matchSeq_replicate_digit {cs : List Char}
    (h : ∀ c ∈ cs, c.isDigit = true) :
    matchSeq (List.replicate cs.length isDigitP) cs = true := by
  induction cs with
  | nil => rfl
  | cons c cs ih =>
    simp only [List.length_cons, List.replicate_succ, matchSeq, Bool.and_eq_true]
    exact ⟨by simpa [isDigitP] using h c (by simp),
      ih (fun x hx => h x (by simp [hx]))⟩

theorem matchSeq_digit_block {cs rest : List Char} {ps : List (Char → Bool)} {n : Nat}
    (hl : cs.length = n) (hdig : ∀ c ∈ cs, c.isDigit = true) :
    matchSeq (List.replicate n isDigitP ++ ps) (cs ++ rest) = matchSeq ps rest := by
  have h := @matchSeq_append_of _ ps _ rest (matchSeq_replicate_digit hdig)
  rwa [hl] at h

theorem matchSeq_lit {a : Char} {ps : List (Char → Bool)} {rest : List Char} :
    matchSeq (litP a :: ps) (a :: rest) = matchSeq ps rest := by
  simp [matchSeq, litP]

theorem filter_cons_neg {p : Char → Bool} {a : Char} {l : List Char} (h : p a = false) :
    (a :: l).filter p = l.filter p := by
  simp [List.filter_cons, h]

theorem filter_cons_pos {p : Char → Bool} {a : Char} {l : List Char} (h : p a = true) :
    (a :: l).filter p = a :: l.filter p := by
  simp [List.filter_cons, h]

theorem filter_ne_char_eq_self {s : List Char} {x : Char} (hx : x.isDigit = false)
    (hs : ∀ c ∈ s, c.isDigit = true) : s.filter (fun c => c ≠ x) = s := by
  apply List.filter_eq_self.mpr
  intro c hc
  have hcd := hs c hc
  have hne : c ≠ x := by
    intro he
    rw [he, hx] at hcd
    exact Bool.noConfusion hcd
  simpa using hne

theorem map_eq_self_of {α : Type} {l : List α} {f : α → α}
    (h : ∀ a ∈ l, f a = a) : l.map f = l := by
  induction l with
  | nil => rfl
  | cons a l ih => simp [h a (by simp), ih (fun x hx => h x (by simp [hx]))]

theorem take_three_chunks {α : Type} (l : List α) (h : l.length = 9) :
    l.take 3 ++ ((l.drop 3).take 3 ++ (l.drop 6).take 3) = l := by
  have h3 : l.take (3 + 6) = l.take 3 ++ (l.drop 3).take 6 := List.take_add l 3 6
  have h6 : (l.drop 3).take (3 + 3) = (l.drop 3).take 3 ++ ((l.drop 3).drop 3).take 3 :=
    List.take_add (l.drop 3) 3 3
  have e1 : (l.drop 3).drop 3 = l.drop 6 := by rw [List.drop_drop]
  have e2 : (l.drop 6).take 3 = l.drop 6 := by
    apply List.take_of_length_le
    simp [h]
  have htake : l.take 9 = l := by
    apply List.take_of_length_le
    omega
  rw [e1] at h6
  rw [← h6]
  have h33 : (3 + 3 : Nat) = 6 := rfl
  rw [h33]
  rw [← h3]
  exact htake

theorem pyFormat02d_eq {n : Nat} (h : n ≤ 99) :
    pyFormat02d n = [Nat.digitChar (n / 10), Nat.digitChar (n % 10)] := by
  by_cases h10 : n < 10
  · have h1 : natDecRepr n = [Nat.digitChar n] := by
      rw [natDecRepr]
      simp [h10]
    have h2 : n / 10 = 0 := Nat.div_eq_of_lt h10
    have h3 : n % 10 = n := Nat.mod_eq_of_lt h10
    simp [pyFormat02d, h10, h1, h2, h3, Nat.digitChar]
  · have hq : n / 10 < 10 := by omega
    have h2 : natDecRepr (n / 10) = [Nat.digitChar (n / 10)] := by
      rw [natDecRepr]
      simp [hq]
    have h3 : natDecRepr n = natDecRepr (n / 10) ++ [Nat.digitChar (n % 10)] := by
      rw [natDecRepr]
      simp [h10]
    simp [pyFormat02d, h10, h3, h2]

theorem digitsToNat_pyFormat02d {n : Nat} (h : n ≤ 99) :
    digitsToNat (pyFormat02d n) = n := by
  rw [pyFormat02d_eq h]
  have hq : n / 10 < 10 := by omega
  have hr : n % 10 < 10 := by omega
  simp [digitsToNat, charToDigit_digitChar hq, charToDigit_digitChar hr]
  omega

theorem snilsControlNumber_le (s : Nat) : snilsControlNumber s ≤ 99 := by
  simp only [snilsControlNumber]
  split_ifs <;> omega

theorem snilsControlNumber_eq_spec (s : Nat) : snilsControlNumber s = specSnilsSuffix s := by
  simp only [snilsControlNumber, specSnilsSuffix]

/-- The assembled SNILS string, with its separators made explicit. -/
theorem generate_snils_data (ds : List Nat) :
    (generate_snils_number ds).data =
      (ds.map Nat.digitChar).take 3 ++ '-' :: (((ds.map Nat.digitChar).drop 3).take 3
      ++ '-' :: (((ds.map Nat.digitChar).drop 6).take 3
      ++ ' ' :: pyFormat02d (snilsControlNumber (snilsSumAux 0 ds)))) := rfl

/-- The SNILS validator accepts every generator output. -/
theorem validate_generated_snils (ds : List Nat) (hlen : ds.length = 9)
    (hd : ∀ d ∈ ds, d < 10) :
    validate_snils_format (generate_snils_number ds) = true := by
  have hD : (ds.map Nat.digitChar).length = 9 := by simp [hlen]
  have hDdig : ∀ c ∈ ds.map Nat.digitChar, c.isDigit = true := by
    intro c hc
    obtain ⟨d, hdm, rfl⟩ := List.mem_map.mp hc
    exact digitChar_isDigit (hd d hdm)
  have hA : ((ds.map Nat.digitChar).take 3).length = 3 := by simp [hD]
  have hB : (((ds.map Nat.digitChar).drop 3).take 3).length = 3 := by simp [hD]
  have hC : (((ds.map Nat.digitChar).drop 6).take 3).length = 3 := by simp [hD]
  have hAdig : ∀ c ∈ (ds.map Nat.digitChar).take 3, c.isDigit = true :=
    fun c hc => hDdig c (List.take_subset 3 _ hc)
  have hBdig : ∀ c ∈ ((ds.map Nat.digitChar).drop 3).take 3, c.isDigit = true :=
    fun c hc => hDdig c (List.drop_subset 3 _ (List.take_subset 3 _ hc))
  have hCdig : ∀ c ∈ ((ds.map Nat.digitChar).drop 6).take 3, c.isDigit = true :=
    fun c hc => hDdig c (List.drop_subset 6 _ (List.take_subset 3 _ hc))
  have hc99 : snilsControlNumber (snilsSumAux 0 ds) ≤ 99 := snilsControlNumber_le _
  have hpad : pyFormat02d (snilsControlNumber (snilsSumAux 0 ds)) =
      [Nat.digitChar (snilsControlNumber (snilsSumAux 0 ds) / 10),
       Nat.digitChar (snilsControlNumber (snilsSumAux 0 ds) % 10)] := pyFormat02d_eq hc99
  have hP : (pyFormat02d (snilsControlNumber (snilsSumAux 0 ds))).length = 2 := by
    rw [hpad]
    rfl
  have hPdig : ∀ c ∈ pyFormat02d (snilsControlNumber (snilsSumAux 0 ds)),
      c.isDigit = true := by
    rw [hpad]
    intro c hc
    simp only [List.mem_cons, List.mem_singleton, List.not_mem_nil, or_false] at hc
    rcases hc with rfl | rfl
    · exact digitChar_isDigit (by omega)
    · exact digitChar_isDigit (by omega)
  -- format check
  have hfmt : matchSnilsFormat (generate_snils_number ds).data = true := by
    rw [generate_snils_data]
    unfold matchSnilsFormat
    rw [matchSeq_digit_block hA hAdig, matchSeq_lit,
        matchSeq_digit_block hB hBdig, matchSeq_lit,
        matchSeq_digit_block hC hCdig, matchSeq_lit]
    have h2 := matchSeq_replicate_digit hPdig
    rwa [hP] at h2
  -- the two filters strip exactly the separators
  have hf1 : (generate_snils_number ds).data.filter (fun c => c ≠ '-') =
      (ds.map Nat.digitChar).take 3 ++ (((ds.map Nat.digitChar).drop 3).take 3
        ++ (((ds.map Nat.digitChar).drop 6).take 3
        ++ ' ' :: pyFormat02d (snilsControlNumber (snilsSumAux 0 ds)))) := by
    rw [generate_snils_data]
    rw [List.filter_append, filter_cons_neg (by decide)]
    rw [List.filter_append, filter_cons_neg (by decide)]
    rw [List.filter_append, filter_cons_pos (by decide)]
    rw [filter_ne_char_eq_self (by decide) hAdig,
        filter_ne_char_eq_self (by decide) hBdig,
        filter_ne_char_eq_self (by decide) hCdig,
        filter_ne_char_eq_self (by decide) hPdig]
  have hfilter : (((generate_snils_number ds).data.filter (fun c => c ≠ '-')).filter
      (fun c => c ≠ ' ')) =
      (ds.map Nat.digitChar).take 3 ++ (((ds.map Nat.digitChar).drop 3).take 3
        ++ (((ds.map Nat.digitChar).drop 6).take 3
        ++ pyFormat02d (snilsControlNumber (snilsSumAux 0 ds)))) := by
    rw [hf1]
    rw [List.filter_append, List.filter_append, List.filter_append,
        filter_cons_neg (by decide)]
    rw [filter_ne_char_eq_self (by decide) hAdig,
        filter_ne_char_eq_self (by decide) hBdig,
        filter_ne_char_eq_self (by decide) hCdig,
        filter_ne_char_eq_self (by decide) hPdig]
  -- assemble
  have hmapback : (ds.map Nat.digitChar).map charToDigit = ds := by
    rw [List.map_map]
    exact map_eq_self_of (fun d hdm => by
      simp only [Function.comp_apply]
      exact charToDigit_digitChar (hd d hdm))
  have hlen11 : ((ds.map Nat.digitChar).take 3 ++ (((ds.map Nat.digitChar).drop 3).take 3
      ++ (((ds.map Nat.digitChar).drop 6).take 3
      ++ pyFormat02d (snilsControlNumber (snilsSumAux 0 ds))))).length = 11 := by
    simp only [List.length_append, hA, hB, hC, hP]
  have hassoc : (ds.map Nat.digitChar).take 3 ++ (((ds.map Nat.digitChar).drop 3).take 3
      ++ (((ds.map Nat.digitChar).drop 6).take 3
      ++ pyFormat02d (snilsControlNumber (snilsSumAux 0 ds)))) =
      ((ds.map Nat.digitChar).take 3 ++ (((ds.map Nat.digitChar).drop 3).take 3
        ++ ((ds.map Nat.digitChar).drop 6).take 3))
      ++ pyFormat02d (snilsControlNumber (snilsSumAux 0 ds)) := by
    simp [List.append_assoc]
  have hlen9 : ((ds.map Nat.digitChar).take 3 ++ (((ds.map Nat.digitChar).drop 3).take 3
      ++ ((ds.map Nat.digitChar).drop 6).take 3)).length = 9 := by
    simp only [List.length_append, hA, hB, hC]
  have htake9 : ((ds.map Nat.digitChar).take 3 ++ (((ds.map Nat.digitChar).drop 3).take 3
      ++ (((ds.map Nat.digitChar).drop 6).take 3
      ++ pyFormat02d (snilsControlNumber (snilsSumAux 0 ds))))).take 9 =
      ds.map Nat.digitChar := by
    rw [hassoc, List.take_left' hlen9]
    exact take_three_chunks _ hD
  have hdrop9 : (((ds.map Nat.digitChar).take 3 ++ (((ds.map Nat.digitChar).drop 3).take 3
      ++ (((ds.map Nat.digitChar).drop 6).take 3
      ++ pyFormat02d (snilsControlNumber (snilsSumAux 0 ds))))).drop 9).take 2 =
      pyFormat02d (snilsControlNumber (snilsSumAux 0 ds)) := by
    rw [hassoc, List.drop_left' hlen9]
    apply List.take_of_length_le
    rw [hP]
  simp only [validate_snils_format]
  rw [hfmt, hfilter, hlen11, htake9, hdrop9, hmapback, digitsToNat_pyFormat02d hc99]
  simp only [snilsControlNumber]
  split_ifs <;> simp_all

/-- A string accepted by `validate_snils_format` necessarily matched the
SNILS regex (the validator returns `false` straight away otherwise). -/
theorem matchSnilsFormat_of_validate {s : String} (h : validate_snils_format s = true) :
    matchSnilsFormat s.data = true := by
  by_cases hm : matchSnilsFormat s.data = true
  · exact hm
  · simp [validate_snils_format, hm] at h

/-- Dropping the first 12 characters of a generated SNILS leaves exactly the
two-digit control suffix. -/
theorem generate_snils_drop12 (ds : List Nat) (hlen : ds.length = 9) :
    (generate_snils_number ds).data.drop 12 =
      pyFormat02d (snilsControlNumber (snilsSumAux 0 ds)) := by
  have hD : (ds.map Nat.digitChar).length = 9 := by simp [hlen]
  have hX : ((ds.map Nat.digitChar).take 3 ++ '-' :: (((ds.map Nat.digitChar).drop 3).take 3
      ++ '-' :: (((ds.map Nat.digitChar).drop 6).take 3 ++ [' ']))).length = 12 := by
    simp [hD]
  have hsplit : (generate_snils_number ds).data =
      ((ds.map Nat.digitChar).take 3 ++ '-' :: (((ds.map Nat.digitChar).drop 3).take 3
        ++ '-' :: (((ds.map Nat.digitChar).drop 6).take 3 ++ [' '])))
      ++ pyFormat02d (snilsControlNumber (snilsSumAux 0 ds)) := by
    rw [generate_snils_data]
    simp [List.append_assoc]
  rw [hsplit, List.drop_left' hX]

/-- Claim C5: for every 9-digit sequence the insurance-number generator's
weighted sum `Σ digit_i * (9 - i)` is mapped to the two-digit suffix exactly
as the spec states (sum if < 100; 0 for 100 and 101; otherwise sum mod 101
with 100 mapped to 0); weighted sum 100 yields suffix "00" and 250 yields
"48"; and the output matches the "DDD-DDD-DDD SS" format (it satisfies the
validator's regex and checksum check). -/
theorem c5_snils_checksum_mapping (ds : List Nat) (hlen : ds.length = 9)
    (hd : ∀ d ∈ ds, d < 10) :
    (∀ s : Nat, snilsControlNumber s = specSnilsSuffix s) ∧
    (generate_snils_number ds).data.drop 12 =
      pyFormat02d (specSnilsSuffix (snilsSumAux 0 ds)) ∧
    matchSnilsFormat (generate_snils_number ds).data = true ∧
    validate_snils_format (generate_snils_number ds) = true ∧
    specSnilsSuffix 100 = 0 ∧ specSnilsSuffix 250 = 48 ∧
    pyFormat02d (specSnilsSuffix 100) = ['0', '0'] ∧
    pyFormat02d (specSnilsSuffix 250) = ['4', '8'] := by
  have hv := validate_generated_snils ds hlen hd
  have e100 : specSnilsSuffix 100 = 0 := by decide
  have e250 : specSnilsSuffix 250 = 48 := by decide
  refine ⟨snilsControlNumber_eq_spec, ?_, matchSnilsFormat_of_validate hv, hv,
    e100, e250, ?_, ?_⟩
  · rw [← snilsControlNumber_eq_spec]
    exact generate_snils_drop12 ds hlen
  · rw [e100, pyFormat02d_eq (by omega)]
    decide
  · rw [e250, pyFormat02d_eq (by omega)]
    decide

/-- Witness for C5 at the all-zero digit sequence. -/
theorem c5_snils_checksum_mapping_witness :
    (∀ s : Nat, snilsControlNumber s = specSnilsSuffix s) ∧
    (generate_snils_number [0, 0, 0, 0, 0, 0, 0, 0, 0]).data.drop 12 =
      pyFormat02d (specSnilsSuffix (snilsSumAux 0 [0, 0, 0, 0, 0, 0, 0, 0, 0])) ∧
    matchSnilsFormat (generate_snils_number [0, 0, 0, 0, 0, 0, 0, 0, 0]).data = true ∧
    validate_snils_format (generate_snils_number [0, 0, 0, 0, 0, 0, 0, 0, 0]) = true ∧
    specSnilsSuffix 100 = 0 ∧ specSnilsSuffix 250 = 48 ∧
    pyFormat02d (specSnilsSuffix 100) = ['0', '0'] ∧
    pyFormat02d (specSnilsSuffix 250) = ['4', '8'] :=
  c5_snils_checksum_mapping [0, 0, 0, 0, 0, 0, 0, 0, 0] (by decide) (by decide)

/-! ## Lemmas for passport generation (claim C10) -/

theorem natDecRepr_spec : ∀ (k n : Nat), 10 ^ k ≤ n → n < 10 ^ (k + 1) →
    (natDecRepr n).length = k + 1 ∧ ∀ c ∈ natDecRepr n, c.isDigit = true := by
  intro k
  induction k with
  | zero =>
    intro n h1 h2
    have h10 : n < 10 := by simpa using h2
    rw [natDecRepr]
    simp only [h10, dite_true, reduceDIte]
    exact ⟨rfl, fun c hc => by
      simp only [List.mem_singleton] at hc
      subst hc
      exact digitChar_isDigit h10⟩
  | succ k ih =>
    intro n h1 h2
    have h10 : ¬ (n < 10) := by
      have hpow : (10 : Nat) ^ 1 ≤ 10 ^ (k + 1) :=
        Nat.pow_le_pow_right (by omega) (by omega)
      simp only [pow_one] at hpow
      omega
    have hdiv1 : 10 ^ k ≤ n / 10 := by
      rw [Nat.le_div_iff_mul_le (by omega)]
      calc 10 ^ k * 10 = 10 ^ (k + 1) := (pow_succ 10 k).symm
        _ ≤ n := h1
    have hdiv2 : n / 10 < 10 ^ (k + 1) := by
      rw [Nat.div_lt_iff_lt_mul (by omega)]
      calc n < 10 ^ (k + 1 + 1) := h2
        _ = 10 ^ (k + 1) * 10 := pow_succ 10 (k + 1)
    obtain ⟨hl, hdig⟩ := ih (n / 10) hdiv1 hdiv2
    rw [natDecRepr]
    simp only [h10, dite_false, reduceDIte]
    constructor
    · simp [hl]
    · intro c hc
      rcases List.mem_append.mp hc with h | h
      · exact hdig c h
      · simp only [List.mem_singleton] at h
        subst h
        exact digitChar_isDigit (Nat.mod_lt n (by omega))

theorem natDecRepr_digits (k : Nat) {lo hi n : Nat} (hlo : lo = 10 ^ k)
    (hhi : hi = 10 ^ (k + 1)) (h1 : lo ≤ n) (h2 : n < hi) :
    (natDecRepr n).length = k + 1 ∧ ∀ c ∈ natDecRepr n, c.isDigit = true :=
  natDecRepr_spec k n (hlo ▸ h1) (hhi ▸ h2)

theorem matchSeq_replicate_of {p : Char → Bool} {cs : List Char}
    (h : ∀ c ∈ cs, p c = true) : matchSeq (List.replicate cs.length p) cs = true := by
  induction cs with
  | nil => rfl
  | cons c cs ih =>
    simp only [List.length_cons, List.replicate_succ, matchSeq, Bool.and_eq_true]
    exact ⟨h c (by simp), ih (fun x hx => h x (by simp [hx]))⟩

theorem matchSeq_block_of {p : Char → Bool} {cs rest : List Char}
    {ps : List (Char → Bool)} {n : Nat}
    (hl : cs.length = n) (h : ∀ c ∈ cs, p c = true) :
    matchSeq (List.replicate n p ++ ps) (cs ++ rest) = matchSeq ps rest := by
  have hx := @matchSeq_append_of _ ps _ rest (matchSeq_replicate_of h)
  rwa [hl] at hx

theorem matchSeq_replicate_end {p : Char → Bool} {cs : List Char} {n : Nat}
    (hl : cs.length = n) (h : ∀ c ∈ cs, p c = true) :
    matchSeq (List.replicate n p) cs = true := by
  have hx := matchSeq_replicate_of h
  rwa [hl] at hx

theorem matchSeq_digit_end {cs : List Char} {n : Nat}
    (hl : cs.length = n) (h : ∀ c ∈ cs, c.isDigit = true) :
    matchSeq (List.replicate n isDigitP) cs = true := by
  have hx := matchSeq_replicate_digit h
  rwa [hl] at hx

/-- Claim C10: `generate_passport_number` returns a string matching the
country's document pattern for each of "ru" (4 digits, space, 6 digits),
"by" (two uppercase letters plus 7 digits) and "kz" ("N" plus 8 digits),
and raises `ValueError` for every other country argument, never returning a
value for an unsupported country. -/
theorem c10_generate_passport_number (country : String) (randint : Nat → Nat → Nat)
    (byPref : String)
    (hrand : ∀ a b : Nat, a ≤ b → a ≤ randint a b ∧ randint a b ≤ b)
    (hpref₁ : byPref.data.length = 2) (hpref₂ : ∀ c ∈ byPref.data, upperP c = true) :
    (country = "ru" → ∃ p, generate_passport_number country randint byPref = Except.ok p ∧
        validate_passport_format p country = true) ∧
    (country = "by" → ∃ p, generate_passport_number country randint byPref = Except.ok p ∧
        validate_passport_format p country = true) ∧
    (country = "kz" → ∃ p, generate_passport_number country randint byPref = Except.ok p ∧
        validate_passport_format p country = true) ∧
    (country ≠ "ru" → country ≠ "by" → country ≠ "kz" →
      generate_passport_number country randint byPref =
        Except.error ("Неподдерживаемая страна: " ++ country)) := by
  refine ⟨?_, ?_, ?_, ?_⟩
  · intro hc
    subst hc
    obtain ⟨hs1, hs2⟩ := hrand 1000 9999 (by omega)
    obtain ⟨hn1, hn2⟩ := hrand 100000 999999 (by omega)
    obtain ⟨hserL, hserD⟩ := natDecRepr_digits 3 (by norm_num) (by norm_num)
      hs1 (show randint 1000 9999 < 10000 by omega)
    obtain ⟨hnumL, hnumD⟩ := natDecRepr_digits 5 (by norm_num) (by norm_num)
      hn1 (show randint 100000 999999 < 1000000 by omega)
    norm_num at hserL hnumL
    refine ⟨String.mk (natDecRepr (randint 1000 9999)
      ++ ' ' :: natDecRepr (randint 100000 999999)), by simp [generate_passport_number], ?_⟩
    simp only [validate_passport_format, if_pos rfl]
    show matchRuPassport (natDecRepr (randint 1000 9999)
      ++ ' ' :: natDecRepr (randint 100000 999999)) = true
    unfold matchRuPassport
    rw [matchSeq_digit_block hserL hserD, matchSeq_lit]
    exact matchSeq_digit_end hnumL hnumD
  · intro hc
    subst hc
    obtain ⟨hn1, hn2⟩ := hrand 1000000 9999999 (by omega)
    obtain ⟨hnumL, hnumD⟩ := natDecRepr_digits 6 (by norm_num) (by norm_num)
      hn1 (show randint 1000000 9999999 < 10000000 by omega)
    norm_num at hnumL
    refine ⟨String.mk (byPref.data ++ natDecRepr (randint 1000000 9999999)),
      by simp [generate_passport_number], ?_⟩
    simp only [validate_passport_format]
    rw [if_neg (show ¬ (("by" : String) = "ru") by decide), if_pos trivial]
    show matchByPassport (byPref.data ++ natDecRepr (randint 1000000 9999999)) = true
    unfold matchByPassport
    rw [matchSeq_block_of hpref₁ hpref₂]
    exact matchSeq_digit_end hnumL hnumD
  · intro hc
    subst hc
    obtain ⟨hn1, hn2⟩ := hrand 10000000 99999999 (by omega)
    obtain ⟨hnumL, hnumD⟩ := natDecRepr_digits 7 (by norm_num) (by norm_num)
      hn1 (show randint 10000000 99999999 < 100000000 by omega)
    norm_num at hnumL
    refine ⟨String.mk ('N' :: natDecRepr (randint 10000000 99999999)),
      by simp [generate_passport_number], ?_⟩
    simp only [validate_passport_format]
    rw [if_neg (show ¬ (("kz" : String) = "ru") by decide),
        if_neg (show ¬ (("kz" : String) = "by") by decide), if_pos trivial]
    show matchKzPassport ('N' :: natDecRepr (randint 10000000 99999999)) = true
    unfold matchKzPassport
    rw [matchSeq_lit]
    exact matchSeq_digit_end hnumL hnumD
  · intro h1 h2 h3
    simp only [generate_passport_number, if_neg h1, if_neg h2, if_neg h3]

/-- Witness for C10: concrete draws (always the lower bound) and the "ru"
country, giving passport "1000 100000". -/
theorem c10_generate_passport_number_witness :
    (("ru" : String) = "ru" →
      ∃ p, generate_passport_number "ru" (fun a _ => a) "AB" = Except.ok p ∧
        validate_passport_format p "ru" = true) ∧
    (("ru" : String) = "by" →
      ∃ p, generate_passport_number "ru" (fun a _ => a) "AB" = Except.ok p ∧
        validate_passport_format p "ru" = true) ∧
    (("ru" : String) = "kz" →
      ∃ p, generate_passport_number "ru" (fun a _ => a) "AB" = Except.ok p ∧
        validate_passport_format p "ru" = true) ∧
    (("ru" : String) ≠ "ru" → ("ru" : String) ≠ "by" → ("ru" : String) ≠ "kz" →
      generate_passport_number "ru" (fun a _ => a) "AB" =
        Except.error ("Неподдерживаемая страна: " ++ "ru")) :=
  c10_generate_passport_number "ru" (fun a _ => a) "AB"
    (fun a _ h => ⟨Nat.le_refl a, h⟩) (by decide) (by decide)

/-- Claim C2 (counterexample): with BIN "400000" and filler "000000000" the
check digit 6 does NOT make the number Luhn-valid (its checksum is 4), and
the search of `generate_bank_card` does not find 6. -/
theorem c2_counterexample :
    luhn_checksum "4000000000000006".data = 4 ∧
    findCheckDigit "400000000000000".data ≠
      some ("400000000000000".data ++ [Nat.digitChar 6]) := by
  decide

/-- Claim C2 (amended): with BIN "400000" and filler "000000000" the
check-digit search finds 2 — the unique digit making the 16-digit number
Luhn-valid — and the generated card is "4000 0000 0000 0002". -/
theorem c2_amended_check_digit_is_two :
    findCheckDigit "400000000000000".data = some "4000000000000002".data ∧
    ((List.range 10).filter
      (fun d => luhn_checksum ("400000000000000".data ++ [Nat.digitChar d]) == 0)) = [2] ∧
    generate_bank_card "400000".data (List.replicate 9 0) = "4000 0000 0000 0002" := by
  decide

/-! ## Lemmas for the record validator (claim C3) -/

/-- The department-code checks never produce the SNILS error. -/
theorem snils_not_in_dept (series : List Char) (dept : Option String) :
    VError.snilsInvalid ∉ ruDeptErrors series dept := by
  rcases dept with _ | dc
  · simp [ruDeptErrors]
  · simp only [ruDeptErrors]
    split_ifs <;> simp

/-- The issue-date checks never produce the SNILS error. -/
theorem snils_not_in_issue (series : List Char) (issue visit : Option String) :
    VError.snilsInvalid ∉ ruIssueErrors series issue visit := by
  rcases issue with _ | isd
  · simp [ruIssueErrors]
  · simp only [ruIssueErrors]
    split_ifs with h1
    · simp
    · cases hf : fromisoformat isd.data with
      | none => simp
      | some issue_dt =>
        simp only [hf]
        intro hmem
        simp only [List.mem_append] at hmem
        rcases hmem with (h | h) | h
        · revert h
          split_ifs <;> simp
        · revert h
          split_ifs <;> simp
        · revert h
          rcases visit with _ | vd
          · simp
          · dsimp only
            split_ifs with h2
            · simp
            · cases hf2 : fromisoformat (removeSub "+03:00".data vd.data) with
              | none => simp
              | some visit_dt =>
                simp only [hf2]
                split_ifs <;> simp

/-- `validate_passport_ru` never produces the SNILS error. -/
theorem snils_not_in_vpru (a : String) (b c d : Option String) :
    VError.snilsInvalid ∉ (validate_passport_ru a b c d).2 := by
  unfold validate_passport_ru
  split_ifs with h
  · simp only [List.mem_append, not_or]
    exact ⟨snils_not_in_dept _ _, snils_not_in_issue _ _ _⟩
  · simp

/-- Claim C3 (counterexample): a fully well-formed record of the primary
country with a blank insurance number passes `validate_record` with an
empty error list — no error entry is produced for the absent SNILS. -/
theorem c3_counterexample :
    sampleRuRecord.passport_country = "ru" ∧ sampleRuRecord.SNILS = "" ∧
    validate_record sampleRuRecord = (true, []) := by
  decide

/-- Claim C3 (amended): `validate_record` produces the SNILS error entry
exactly when the record is of the primary country AND the insurance number
is present (non-empty) AND it fails the format/checksum validation; an
absent or blank insurance number produces no error for any country. -/
theorem c3_amended_snils_error_iff (r : Record) :
    VError.snilsInvalid ∈ (validate_record r).2 ↔
      (r.passport_country = "ru" ∧ r.SNILS ≠ "" ∧
        validate_snils_format r.SNILS = false) := by
  have hfio : VError.snilsInvalid ∉
      (if r.FIO = "" ∨ pyWordCount r.FIO ≠ 3 then [VError.fioInvalid] else []) := by
    split_ifs <;> simp
  have hpass : VError.snilsInvalid ∉
      (if r.passport_country = "ru" then
        (if (validate_passport_ru r.passport_data r.passport_issue_date
            r.passport_department_code r.visit_date).1 then []
         else (validate_passport_ru r.passport_data r.passport_issue_date
            r.passport_department_code r.visit_date).2)
      else
        (if validate_passport_format r.passport_data r.passport_country then []
         else [VError.passportFormat r.passport_country])) := by
    split_ifs <;>
      simp [snils_not_in_vpru]
  have hvisit : VError.snilsInvalid ∉
      (if validate_iso_datetime (r.visit_date.getD "") then []
       else [VError.visitDateFormat]) := by
    split_ifs <;> simp
  have hanalysis : VError.snilsInvalid ∉
      (if validate_iso_datetime r.analysis_date then []
       else [VError.analysisDateFormat]) := by
    split_ifs <;> simp
  have hcard : VError.snilsInvalid ∉
      (if validate_card_number r.payment_card then [] else [VError.cardInvalid]) := by
    split_ifs <;> simp
  have hcost : VError.snilsInvalid ∉
      (if pyEndsWith r.analysis_cost " руб." then [] else [VError.costNotRub]) := by
    split_ifs <;> simp
  have hsnils : VError.snilsInvalid ∈
      (if r.passport_country = "ru" then
        (if r.SNILS ≠ "" ∧ validate_snils_format r.SNILS = false then
          [VError.snilsInvalid]
        else [])
      else []) ↔
      (r.passport_country = "ru" ∧ r.SNILS ≠ "" ∧
        validate_snils_format r.SNILS = false) := by
    split_ifs with h1 h2
    · simp [h1, h2]
    · simp [h1, h2]
    · simp [h1]
  simp only [validate_record, List.mem_append]
  simp only [List.mem_append] at hfio hpass hvisit hanalysis hcard hcost
  constructor
  · intro h
    rcases h with ((((((h | h) | h) | h) | h) | h) | h)
    · exact absurd h hfio
    · exact absurd h hpass
    · exact hsnils.mp h
    · exact absurd h hvisit
    · exact absurd h hanalysis
    · exact absurd h hcard
    · exact absurd h hcost
  · intro h
    exact Or.inl (Or.inl (Or.inl (Or.inl (Or.inr (hsnils.mpr h)))))

/-- Witness for C3 (amended): the same record with a present but
checksum-invalid SNILS does get the SNILS error entry. -/
theorem c3_amended_snils_error_iff_witness :
    VError.snilsInvalid ∈
      (validate_record { sampleRuRecord with SNILS := "000-000-000 01" }).2 :=
  (c3_amended_snils_error_iff { sampleRuRecord with SNILS := "000-000-000 01" }).mpr
    ⟨by decide, by decide, by decide⟩

/-! ## Lemmas for the analysis-timestamp loop (claim C4) -/

/-- Every correction moves the candidate forward in time. -/
theorem correctStep_ge (dt : Nat) : dt ≤ correctStep dt := by
  simp only [correctStep, hourOf, replaceHM, WORK_HOURS_START, WORK_HOURS_END]
  split_ifs <;> omega

/-- After the hour clamp the hour always lies in the working window. -/
theorem correctStep_hour (dt : Nat) :
    WORK_HOURS_START ≤ hourOf (correctStep dt) ∧
    hourOf (correctStep dt) < WORK_HOURS_END := by
  simp only [correctStep, hourOf, replaceHM, WORK_HOURS_START, WORK_HOURS_END]
  split_ifs <;> constructor <;> omega

/-- Invariant of the retry loop: the result stays between `MIN` and `MAX`
hours after the visit, and a `break` exit lands inside working hours. -/
theorem analysisLoop_spec (visit : Nat) (redraw : Nat → Nat)
    (hre : ∀ i, ANALYSIS_MIN_HOURS ≤ redraw i ∧ redraw i ≤ min 60 ANALYSIS_MAX_HOURS) :
    ∀ (fuel i dt : Nat), visit + 60 * ANALYSIS_MIN_HOURS ≤ dt →
    dt ≤ visit + 60 * ANALYSIS_MAX_HOURS →
    visit + 60 * ANALYSIS_MIN_HOURS ≤ (analysisLoop visit redraw fuel i dt).1 ∧
    (analysisLoop visit redraw fuel i dt).1 ≤ visit + 60 * ANALYSIS_MAX_HOURS ∧
    ((analysisLoop visit redraw fuel i dt).2 = true →
      WORK_HOURS_START ≤ hourOf (analysisLoop visit redraw fuel i dt).1 ∧
      hourOf (analysisLoop visit redraw fuel i dt).1 < WORK_HOURS_END) := by
  intro fuel
  induction fuel with
  | zero =>
    intro i dt h1 h2
    exact ⟨h1, h2, by simp [analysisLoop]⟩
  | succ n ih =>
    intro i dt h1 h2
    simp only [analysisLoop]
    by_cases hc : correctStep dt - visit ≤ 60 * ANALYSIS_MAX_HOURS
    · rw [if_pos hc]
      have hge := correctStep_ge dt
      simp only [ANALYSIS_MIN_HOURS, ANALYSIS_MAX_HOURS] at *
      exact ⟨by omega, by omega, fun _ => correctStep_hour dt⟩
    · rw [if_neg hc]
      have hr : 24 ≤ redraw i ∧ redraw i ≤ 60 := by
        simpa [ANALYSIS_MIN_HOURS, ANALYSIS_MAX_HOURS] using hre i
      have g1 : visit + 60 * ANALYSIS_MIN_HOURS ≤ visit + 60 * redraw i := by
        simp only [ANALYSIS_MIN_HOURS]
        omega
      have g2 : visit + 60 * redraw i ≤ visit + 60 * ANALYSIS_MAX_HOURS := by
        simp only [ANALYSIS_MAX_HOURS]
        omega
      exact ih (i + 1) (visit + 60 * redraw i) g1 g2

/-- Claim C4 (counterexample): visit on Thursday 09:00 (a working day at a
working hour) with initial offset draw 33 hours: the Friday-18:00 candidate
is clamped to the next day 09:00 — Saturday — and accepted by the break,
so the analysis timestamp's weekday is NOT in the working-day set even
though all of the claim's hypotheses hold. -/
theorem c4_counterexample :
    weekday 4860 ∈ WORK_DAYS ∧
    WORK_HOURS_START ≤ hourOf 4860 ∧ hourOf 4860 < WORK_HOURS_END ∧
    ANALYSIS_MIN_HOURS ≤ 33 ∧ 33 ≤ ANALYSIS_MAX_HOURS ∧
    (∀ i : Nat, ANALYSIS_MIN_HOURS ≤ (fun _ : Nat => 24) i ∧
      (fun _ : Nat => 24) i ≤ min 60 ANALYSIS_MAX_HOURS) ∧
    generate_analysis_datetime 4860 33 (fun _ => 24) = (7740, true) ∧
    weekday 7740 ∉ WORK_DAYS := by
  refine ⟨by decide, by decide, by decide, by decide, by decide,
    fun i => ⟨(by decide : ANALYSIS_MIN_HOURS ≤ 24),
      (by decide : (24 : Nat) ≤ min 60 ANALYSIS_MAX_HOURS)⟩, by decide, by decide⟩

/-- Claim C4 (amended): for a visit on a working day at a working hour and
draws in the documented ranges, the analysis timestamp always lies within
[ANALYSIS_MIN_HOURS, ANALYSIS_MAX_HOURS] of the visit, and whenever the
loop exits through its `break` the analysis hour lies in
[WORK_HOURS_START, WORK_HOURS_END).  The working-weekday guarantee is
dropped: the end-of-day clamp can land on a non-working day (see the
counterexample), and on retry exhaustion the returned timestamp is the last
uncorrected redraw, whose hour may also fall outside the window. -/
theorem c4_amended_analysis_window (visit hours0 : Nat) (redraw : Nat → Nat)
    (hwd : weekday visit ∈ WORK_DAYS)
    (hh1 : WORK_HOURS_START ≤ hourOf visit) (hh2 : hourOf visit < WORK_HOURS_END)
    (h0a : ANALYSIS_MIN_HOURS ≤ hours0) (h0b : hours0 ≤ ANALYSIS_MAX_HOURS)
    (hre : ∀ i, ANALYSIS_MIN_HOURS ≤ redraw i ∧ redraw i ≤ min 60 ANALYSIS_MAX_HOURS) :
    60 * ANALYSIS_MIN_HOURS ≤ (generate_analysis_datetime visit hours0 redraw).1 - visit ∧
    (generate_analysis_datetime visit hours0 redraw).1 - visit ≤ 60 * ANALYSIS_MAX_HOURS ∧
    ((generate_analysis_datetime visit hours0 redraw).2 = true →
      WORK_HOURS_START ≤ hourOf (generate_analysis_datetime visit hours0 redraw).1 ∧
      hourOf (generate_analysis_datetime visit hours0 redraw).1 < WORK_HOURS_END) := by
  have h := analysisLoop_spec visit redraw hre 10 0 (visit + 60 * hours0)
    (by simp only [ANALYSIS_MIN_HOURS] at h0a ⊢; omega)
    (by simp only [ANALYSIS_MAX_HOURS] at h0b ⊢; omega)
  simp only [generate_analysis_datetime]
  exact ⟨by omega, by omega, h.2.2⟩

/-- Witness for C4 (amended) at visit Thursday 09:00 with offset 24. -/
theorem c4_amended_analysis_window_witness :
    60 * ANALYSIS_MIN_HOURS ≤
      (generate_analysis_datetime 4860 24 (fun _ => 24)).1 - 4860 ∧
    (generate_analysis_datetime 4860 24 (fun _ => 24)).1 - 4860 ≤
      60 * ANALYSIS_MAX_HOURS ∧
    ((generate_analysis_datetime 4860 24 (fun _ => 24)).2 = true →
      WORK_HOURS_START ≤ hourOf (generate_analysis_datetime 4860 24 (fun _ => 24)).1 ∧
      hourOf (generate_analysis_datetime 4860 24 (fun _ => 24)).1 < WORK_HOURS_END) :=
  c4_amended_analysis_window 4860 24 (fun _ => 24) (by decide) (by decide) (by decide)
    (by decide) (by decide)
    (fun i => ⟨(by decide : ANALYSIS_MIN_HOURS ≤ 24),
      (by decide : (24 : Nat) ≤ min 60 ANALYSIS_MAX_HOURS)⟩)

/-! ## Lemmas for the uniqueness tracker (claims C1, C8, C9) -/

theorem lookupA_setA_self {α β : Type} [DecidableEq α]
    (m : List (α × β)) (k : α) (v : β) : lookupA (setA m k v) k = some v := by
  induction m with
  | nil => simp [setA, lookupA]
  | cons kv rest ih =>
    obtain ⟨k', v'⟩ := kv
    by_cases h : k' = k
    · subst h
      simp [setA, lookupA]
    · simp [setA, lookupA, h, ih]

theorem lookupA_setA_ne {α β : Type} [DecidableEq α]
    (m : List (α × β)) (k k' : α) (v : β) (h : k' ≠ k) :
    lookupA (setA m k v) k' = lookupA m k' := by
  induction m with
  | nil => simp [setA, lookupA, Ne.symm h]
  | cons kv rest ih =>
    obtain ⟨k'', v''⟩ := kv
    by_cases he : k'' = k
    · subst he
      simp [setA, lookupA, Ne.symm h]
    · simp [setA, lookupA, he, ih]

/-- The assembler's card-selection path mutates the tracker exactly as one
`use_card` call on the card it returns: every branch (reuse, search hit,
forced fallback) ends in `use_card`. -/
theorem selectCard_eq_use_card (t : UniquenessTracker) (coin : Bool) (pick : Nat)
    (gen : Nat → String) :
    ∃ c, (selectPaymentCard t coin pick gen).1 = c ∧
      (selectPaymentCard t coin pick gen).2 = (t.use_card c).2 := by
  simp only [selectPaymentCard]
  repeat' split
  all_goals exact ⟨_, rfl, rfl⟩

/-- The three registry mutators never touch `card_usage`. -/
theorem stepOp_card_usage_nonCard (t : UniquenessTracker) (p f s : String) :
    (stepOp t (.addPassport p)).card_usage = t.card_usage ∧
    (stepOp t (.addFioPassport f p)).card_usage = t.card_usage ∧
    (stepOp t (.addClientSnils f p s)).card_usage = t.card_usage := by
  refine ⟨?_, ?_, ?_⟩ <;>
    simp only [stepOp, UniquenessTracker.add_passport,
      UniquenessTracker.add_fio_passport, UniquenessTracker.add_client_snils] <;>
    (repeat' split) <;> rfl

/-- `use_card` keeps every usage count at or below the limit. -/
theorem use_card_usage_le (t : UniquenessTracker)
    (h : ∀ c, lookupUsage t c ≤ CARD_REUSE_LIMIT) (c₀ c : String) :
    lookupUsage (t.use_card c₀).2 c ≤ CARD_REUSE_LIMIT := by
  by_cases hc : t.can_use_card c₀ = true
  · by_cases he : c = c₀
    · subst he
      have hlt : lookupUsage t c < 5 := by
        simpa [UniquenessTracker.can_use_card, lookupUsage] using hc
      simp only [UniquenessTracker.use_card, hc, if_pos, lookupUsage,
        lookupA_setA_self, Option.getD_some, CARD_REUSE_LIMIT]
      simp only [lookupUsage] at hlt
      omega
    · simp only [UniquenessTracker.use_card, hc, if_pos, lookupUsage,
        lookupA_setA_ne t.card_usage c₀ c _ he]
      exact h c
  · simp only [UniquenessTracker.use_card, hc, if_neg, Bool.false_eq_true,
      if_false]
    exact h c

/-- One step preserves the card-usage invariant. -/
theorem usage_le_step (t : UniquenessTracker) (op : TrackerOp)
    (h : ∀ c, lookupUsage t c ≤ CARD_REUSE_LIMIT) :
    ∀ c, lookupUsage (stepOp t op) c ≤ CARD_REUSE_LIMIT := by
  cases op with
  | addPassport p =>
    intro c
    unfold lookupUsage
    rw [(stepOp_card_usage_nonCard t p "" "").1]
    exact h c
  | addFioPassport f p =>
    intro c
    unfold lookupUsage
    rw [(stepOp_card_usage_nonCard t p f "").2.1]
    exact h c
  | addClientSnils f p s =>
    intro c
    unfold lookupUsage
    rw [(stepOp_card_usage_nonCard t p f s).2.2]
    exact h c
  | useCard c₀ => exact fun c => use_card_usage_le t h c₀ c
  | selectCard coin pick gen =>
    obtain ⟨c₀, _, hc2⟩ := selectCard_eq_use_card t coin pick gen
    intro c
    simp only [stepOp]
    rw [hc2]
    exact use_card_usage_le t h c₀ c

/-- Running any operation list preserves the card-usage invariant. -/
theorem runOps_usage_le : ∀ (ops : List TrackerOp) (t : UniquenessTracker),
    (∀ c, lookupUsage t c ≤ CARD_REUSE_LIMIT) →
    ∀ c, lookupUsage (runOps ops t) c ≤ CARD_REUSE_LIMIT := by
  intro ops
  induction ops with
  | nil => intro t h; exact h
  | cons op rest ih => intro t h; exact ih _ (usage_le_step t op h)

/-- No tracker operation ever changes an existing name-to-document binding. -/
theorem stepOp_preserves_fio (t : UniquenessTracker) (op : TrackerOp) (fio q : String)
    (h : t.get_fio_passport fio = some q) :
    (stepOp t op).get_fio_passport fio = some q := by
  cases op with
  | addPassport p =>
    simp only [stepOp, UniquenessTracker.add_passport]
    split <;> exact h
  | addFioPassport f p =>
    simp only [stepOp, UniquenessTracker.add_fio_passport]
    by_cases hl : (lookupA t.fio_to_passport f).isNone = true
    · rw [if_pos hl]
      have hne : fio ≠ f := by
        intro he
        subst he
        rw [UniquenessTracker.get_fio_passport] at h
        rw [h] at hl
        simp at hl
      simp only [UniquenessTracker.add_passport, UniquenessTracker.get_fio_passport]
      split <;>
        exact (lookupA_setA_ne t.fio_to_passport f fio p hne).trans h
    · rw [if_neg hl]
      exact h
  | addClientSnils f p s =>
    simp only [stepOp, UniquenessTracker.add_client_snils]
    split <;> exact h
  | useCard c =>
    simp only [stepOp, UniquenessTracker.use_card]
    split <;> exact h
  | selectCard coin pick gen =>
    obtain ⟨c, _, hc2⟩ := selectCard_eq_use_card t coin pick gen
    simp only [stepOp]
    rw [hc2]
    simp only [UniquenessTracker.use_card]
    split <;> exact h

/-- Name-to-document bindings persist across any operation sequence. -/
theorem runOps_preserves_fio : ∀ (ops : List TrackerOp) (t : UniquenessTracker)
    (fio q : String), t.get_fio_passport fio = some q →
    (runOps ops t).get_fio_passport fio = some q := by
  intro ops
  induction ops with
  | nil => intro t fio q h; exact h
  | cons op rest ih =>
    intro t fio q h
    exact ih _ _ _ (stepOp_preserves_fio t op fio q h)

/-! ## Claim theorems: uniqueness tracker -/

/-- Claim C1: starting from the empty tracker, every card's usage count
stays at or below the reuse limit under any sequence of tracker operations
(the assembler's card path included); the three registry mutators never
change a usage count; and the assembler's card path — its forced-fallback
branch included — mutates the tracker exactly through one `use_card` call
on the card it returns. -/
theorem c1_card_usage_invariant :
    (∀ (ops : List TrackerOp) (c : String),
      lookupUsage (runOps ops emptyTracker) c ≤ CARD_REUSE_LIMIT) ∧
    (∀ (t : UniquenessTracker) (p f s : String),
      (stepOp t (.addPassport p)).card_usage = t.card_usage ∧
      (stepOp t (.addFioPassport f p)).card_usage = t.card_usage ∧
      (stepOp t (.addClientSnils f p s)).card_usage = t.card_usage) ∧
    (∀ (t : UniquenessTracker) (coin : Bool) (pick : Nat) (gen : Nat → String),
      ∃ c, (selectPaymentCard t coin pick gen).1 = c ∧
        (selectPaymentCard t coin pick gen).2 = (t.use_card c).2) := by
  refine ⟨?_, stepOp_card_usage_nonCard, selectCard_eq_use_card⟩
  intro ops c
  exact runOps_usage_le ops emptyTracker
    (fun c => by simp [lookupUsage, emptyTracker, lookupA, CARD_REUSE_LIMIT]) c

/-- Claim C8: `use_card` returns true exactly when `can_use_card` held at
call time (usage below the limit, 0 for an unseen card); on success it
increments that card's count by exactly one and touches nothing else; on
failure it returns false and leaves the tracker entirely unchanged. -/
theorem c8_use_card_spec (t : UniquenessTracker) (c : String) :
    (t.can_use_card c = true ↔ lookupUsage t c < CARD_REUSE_LIMIT) ∧
    ((t.use_card c).1 = true ↔ t.can_use_card c = true) ∧
    ((t.use_card c).1 = true →
      lookupUsage (t.use_card c).2 c = lookupUsage t c + 1 ∧
      (∀ c', c' ≠ c → lookupUsage (t.use_card c).2 c' = lookupUsage t c') ∧
      (t.use_card c).2.passports = t.passports ∧
      (t.use_card c).2.fio_to_passport = t.fio_to_passport ∧
      (t.use_card c).2.snils_by_client = t.snils_by_client) ∧
    ((t.use_card c).1 = false → (t.use_card c).2 = t) := by
  refine ⟨by simp [UniquenessTracker.can_use_card, lookupUsage, CARD_REUSE_LIMIT],
    ?_, ?_, ?_⟩
  · by_cases hc : t.can_use_card c = true <;>
      simp [UniquenessTracker.use_card, hc]
  · intro htrue
    have hc : t.can_use_card c = true := by
      by_cases hc : t.can_use_card c = true
      · exact hc
      · simp [UniquenessTracker.use_card, hc] at htrue
    refine ⟨?_, ?_, ?_, ?_, ?_⟩
    · simp [UniquenessTracker.use_card, hc, lookupUsage, lookupA_setA_self]
    · intro c' hne
      simp [UniquenessTracker.use_card, hc, lookupUsage,
        lookupA_setA_ne t.card_usage c c' _ hne]
    · simp [UniquenessTracker.use_card, hc]
    · simp [UniquenessTracker.use_card, hc]
    · simp [UniquenessTracker.use_card, hc]
  · intro hfalse
    by_cases hc : t.can_use_card c = true
    · simp [UniquenessTracker.use_card, hc] at hfalse
    · simp [UniquenessTracker.use_card, hc]

/-- Witness for C8: using a fresh card on the empty tracker succeeds and
sets its count to 1. -/
theorem c8_use_card_spec_witness :
    (emptyTracker.use_card "4000 0000 0000 0002").1 = true ∧
    lookupUsage (emptyTracker.use_card "4000 0000 0000 0002").2
      "4000 0000 0000 0002" = lookupUsage emptyTracker "4000 0000 0000 0002" + 1 := by
  have h := c8_use_card_spec emptyTracker "4000 0000 0000 0002"
  have hcan : emptyTracker.can_use_card "4000 0000 0000 0002" = true := by decide
  have htrue := (h.2.1).mpr hcan
  exact ⟨htrue, (h.2.2.1 htrue).1⟩

/-- Claim C9: `add_fio_passport` succeeds exactly when the name has no
prior document; on success the name maps to the new document and the
document is recorded in the passport set; on failure the tracker is
unchanged; and an established name-to-document binding survives every later
tracker operation, so each name maps to exactly one document for the
lifetime of a run. -/
theorem c9_add_fio_passport_spec (t : UniquenessTracker) (fio passport : String) :
    ((t.add_fio_passport fio passport).1 = true ↔ t.get_fio_passport fio = none) ∧
    ((t.add_fio_passport fio passport).1 = true →
      (t.add_fio_passport fio passport).2.get_fio_passport fio = some passport ∧
      passport ∈ (t.add_fio_passport fio passport).2.passports) ∧
    ((t.add_fio_passport fio passport).1 = false →
      (t.add_fio_passport fio passport).2 = t) ∧
    (∀ (ops : List TrackerOp) (q : String), t.get_fio_passport fio = some q →
      (runOps ops t).get_fio_passport fio = some q) := by
  refine ⟨?_, ?_, ?_, fun ops q hq => runOps_preserves_fio ops t fio q hq⟩
  · by_cases hl : (lookupA t.fio_to_passport fio).isNone = true <;>
      simp [UniquenessTracker.add_fio_passport, hl,
        UniquenessTracker.get_fio_passport, Option.isNone_iff_eq_none] <;>
      simpa [Option.isNone_iff_eq_none] using hl
  · intro htrue
    have hl : (lookupA t.fio_to_passport fio).isNone = true := by
      by_cases hl : (lookupA t.fio_to_passport fio).isNone = true
      · exact hl
      · simp [UniquenessTracker.add_fio_passport, hl] at htrue
    constructor
    · simp only [UniquenessTracker.add_fio_passport, hl, if_pos,
        UniquenessTracker.add_passport, UniquenessTracker.get_fio_passport]
      split <;> exact lookupA_setA_self t.fio_to_passport fio passport
    · simp only [UniquenessTracker.add_fio_passport, hl, if_pos,
        UniquenessTracker.add_passport, UniquenessTracker.is_passport_unique]
      split
      · simp
      · next hmem =>
        simp only [decide_eq_true_eq] at hmem
        simp at hmem ⊢
        exact hmem
  · intro hfalse
    by_cases hl : (lookupA t.fio_to_passport fio).isNone = true
    · simp [UniquenessTracker.add_fio_passport, hl] at hfalse
    · simp [UniquenessTracker.add_fio_passport, hl]

/-- Witness for C9: registering a fresh name on the empty tracker succeeds,
binds the name, records the passport, and the binding survives an empty
operation run. -/
theorem c9_add_fio_passport_spec_witness :
    (emptyTracker.add_fio_passport "Ivanov Ivan Ivanovich" "4512 111111").1 = true ∧
    (emptyTracker.add_fio_passport "Ivanov Ivan Ivanovich"
      "4512 111111").2.get_fio_passport "Ivanov Ivan Ivanovich" = some "4512 111111" ∧
    "4512 111111" ∈
      (emptyTracker.add_fio_passport "Ivanov Ivan Ivanovich" "4512 111111").2.passports ∧
    (runOps [] (emptyTracker.add_fio_passport "Ivanov Ivan Ivanovich"
      "4512 111111").2).get_fio_passport "Ivanov Ivan Ivanovich" = some "4512 111111" := by
  have h := c9_add_fio_passport_spec emptyTracker "Ivanov Ivan Ivanovich" "4512 111111"
  have htrue := (h.1).mpr (by decide)
  obtain ⟨hg, hm⟩ := h.2.1 htrue
  have h2 := c9_add_fio_passport_spec
    (emptyTracker.add_fio_passport "Ivanov Ivan Ivanovich" "4512 111111").2
    "Ivanov Ivan Ivanovich" "4512 111111"
  exact ⟨htrue, hg, hm, h2.2.2.2 [] _ hg⟩

end Clinic
